import Mathlib

/-!
Verification development for the Extended JWT authentication client
(`pkg/services/authn/clients/ext_jwt.go`, exercised by `ext_jwt_test.go`).

The implementation file itself is not part of the material under review;
only its test file is.  The definitions below are therefore modelled from
the design specification (spec.md), with the test file
`ext_jwt_test.go` as the binding authority wherever it pins concrete
behaviour (expected identities, the `Test` truth table, the mocked clock).

Modelling conventions:
  * Go strings are Lean `String`s; the low-level wire functions work on
    `List Char` (`String.data`).
  * The RFC 9068 compact serialization `header.payload.signature` is
    embedded by an executable escape-encoding: every character is written
    as its decimal code point followed by `-`, fields are joined with `,`
    and list elements with `;`.  Segments are joined with `.`.
  * RSA is abstracted: keys are identifiers (`Nat`), and a signature blob
    records which key produced it and over which signing input; signature
    verification succeeds exactly when the blob's key matches the resolved
    public key and the blob's input matches the actual header+payload
    signing input.  This models "the signature verifies iff it was
    produced by the matching private key over these exact bytes".
  * The injected clock (`timeNow` in the Go code, substituted by
    `mockTimeNow` in tests) is a unix-seconds `Int` carried in the client
    environment.
-/

/-- A role in an organization (`roletype.RoleType`). -/
inductive RoleType
  | viewer
  | editor
  | admin
deriving DecidableEq, Repr

/-- Modelled from the spec: the typed RFC 9068 access-token payload
(§3 AccessTokenClaims; `rfc9068Payload` in the test file).  A field that is
absent on the wire (Go zero value with `omitempty`) is `none` / `[]`. -/
structure RFC9068Claims where
  issuer : Option String
  subject : Option String
  audience : List String
  expiry : Option Int
  notBefore : Option Int
  issuedAt : Option Int
  id : Option String
  clientID : Option String
  scopes : List String
deriving DecidableEq, Repr

/-- The JOSE header of a compact signed token (`alg`, `typ`). -/
structure JoseHeader where
  alg : String
  typ : String
deriving DecidableEq, Repr

/-- Abstract signature blob: which private key produced it, and over which
signing input (header-segment ++ "." ++ payload-segment). -/
structure SigBlob where
  key : Nat
  input : List Char
deriving DecidableEq, Repr

/-- Result of the structural parse of a compact serialization
(`jwt.ParseSigned`): decoded header, the raw payload segment (claims are
only decoded after the signature check), the signature blob, and the
signing input reconstructed from the wire. -/
structure ParsedJWT where
  header : JoseHeader
  rawPayload : List Char
  sig : SigBlob
  signingInput : List Char
deriving DecidableEq, Repr

/-- Encode one character as its decimal code point followed by `-`. -/
def encChar (c : Char) : List Char :=
  (Nat.repr c.toNat).data ++ ['-']

/-- Escape-encode a string into the restricted alphabet (digits and `-`). -/
def encStr (s : String) : List Char :=
  s.data.foldr (fun c acc => encChar c ++ acc) []

/-- Decode the escape-encoding: runs of digits terminated by `-`.
`acc` is the value of the digit run read so far, `seen` whether the run is
non-empty. -/
def decStrAux : List Char → Nat → Bool → Option (List Char)
  | [], _, seen => if seen then none else some []
  | c :: rest, acc, seen =>
    if c = '-' then
      if seen then (decStrAux rest 0 false).map (fun l => Char.ofNat acc :: l)
      else none
    else if c.isDigit then decStrAux rest (acc * 10 + (c.toNat - 48)) true
    else none

/-- Decode a whole escape-encoded segment back into a string. -/
def decStr (l : List Char) : Option String :=
  (decStrAux l 0 false).map String.mk

/-- Split a character list on a separator character (all occurrences). -/
def splitSeg (sep : Char) : List Char → List (List Char)
  | [] => [[]]
  | c :: rest =>
    let r := splitSeg sep rest
    if c = sep then [] :: r
    else
      match r with
      | [] => [[c]]
      | h :: t => (c :: h) :: t

/-- Encode an optional string field: absent is empty, present is tagged `v`. -/
def encOptStr : Option String → List Char
  | none => []
  | some s => 'v' :: encStr s

/-- Decode an optional string field. -/
def decOptStr : List Char → Option (Option String)
  | [] => some none
  | 'v' :: rest => (decStr rest).map some
  | _ => none

/-- Encode an optional integer field (unix timestamp). -/
def encOptInt : Option Int → List Char
  | none => []
  | some i => 'v' :: encStr (toString i)

/-- Value of a list of decimal digit characters. -/
def digitsToNat (l : List Char) : Nat :=
  l.foldl (fun n c => n * 10 + (c.toNat - 48)) 0

/-- Parse a decimal natural number (non-empty, digits only). -/
def parseNatChars (l : List Char) : Option Nat :=
  if l ≠ [] ∧ l.all Char.isDigit then some (digitsToNat l) else none

/-- Parse a decimal integer with an optional leading minus sign. -/
def parseIntChars : List Char → Option Int
  | [] => none
  | '-' :: rest => (parseNatChars rest).map (fun n => -(n : Int))
  | l => (parseNatChars l).map (fun n => (n : Int))

/-- Decode an optional integer field. -/
def decOptInt : List Char → Option (Option Int)
  | [] => some none
  | 'v' :: rest =>
    match decStr rest with
    | none => none
    | some s =>
      match parseIntChars s.data with
      | none => none
      | some i => some (some i)
  | _ => none

/-- Encode a string list field, elements joined with `;`; empty list is empty. -/
def encListStr : List String → List Char
  | [] => []
  | s :: rest =>
    match rest with
    | [] => encStr s
    | _ => encStr s ++ ';' :: encListStr rest

/-- Decode a string list field. -/
def decListStr (l : List Char) : Option (List String) :=
  match l with
  | [] => some []
  | _ =>
    let parts := splitSeg ';' l
    parts.foldr (fun p acc =>
      match decStr p, acc with
      | some s, some ss => some (s :: ss)
      | _, _ => none) (some [])

/-- Encode the JOSE header segment: `alg` and `typ`, joined with `,`. -/
def encHeader (h : JoseHeader) : List Char :=
  encStr h.alg ++ ',' :: encStr h.typ

/-- Decode the JOSE header segment; failure means the header is not
recognizable and the whole token is unparseable. -/
def decHeader (l : List Char) : Option JoseHeader :=
  match splitSeg ',' l with
  | [a, t] =>
    match decStr a, decStr t with
    | some alg, some typ => some { alg := alg, typ := typ }
    | _, _ => none
  | _ => none

/-- Replace the segment separator `.` inside a signing input by `p`
(which never occurs in the encoding alphabet), so that the signature
segment stays dot-free. -/
def escapeDot (l : List Char) : List Char :=
  l.map (fun c => if c = '.' then 'p' else c)

/-- Inverse of `escapeDot`. -/
def unescapeDot (l : List Char) : List Char :=
  l.map (fun c => if c = 'p' then '.' else c)

/-- The wire form of a signature produced by private key `key` over
`input`: the key id in decimal, a `k` marker, then the escaped input. -/
def mkSigWire (key : Nat) (input : List Char) : List Char :=
  (Nat.repr key).data ++ 'k' :: escapeDot input

/-- Read a decimal number terminated by `stop`; returns the value and the
remaining characters. -/
def readNatUntil (stop : Char) : List Char → Nat → Bool → Option (Nat × List Char)
  | [], _, _ => none
  | c :: rest, acc, seen =>
    if c = stop then
      if seen then some (acc, rest) else none
    else if c.isDigit then readNatUntil stop rest (acc * 10 + (c.toNat - 48)) true
    else none

/-- Decode a signature segment back into a signature blob. -/
def decSig (l : List Char) : Option SigBlob :=
  (readNatUntil 'k' l 0 false).map (fun kr => { key := kr.1, input := unescapeDot kr.2 })

/-- Encode the RFC 9068 payload segment: the nine fields in wire order,
joined with `,`. -/
def encPayload (c : RFC9068Claims) : List Char :=
  encOptStr c.issuer ++ ',' :: encOptStr c.subject ++ ',' :: encListStr c.audience
    ++ ',' :: encOptInt c.expiry ++ ',' :: encOptInt c.notBefore
    ++ ',' :: encOptInt c.issuedAt ++ ',' :: encOptStr c.id
    ++ ',' :: encOptStr c.clientID ++ ',' :: encListStr c.scopes

/-- Decode the payload segment into the typed claims (§4.1 structural
decode; failure is `MalformedClaims`). -/
def decodePayload (l : List Char) : Option RFC9068Claims :=
  match splitSeg ',' l with
  | [f1, f2, f3, f4, f5, f6, f7, f8, f9] => do
    let issuer ← decOptStr f1
    let subject ← decOptStr f2
    let audience ← decListStr f3
    let expiry ← decOptInt f4
    let notBefore ← decOptInt f5
    let issuedAt ← decOptInt f6
    let id ← decOptStr f7
    let clientID ← decOptStr f8
    let scopes ← decListStr f9
    pure { issuer := issuer, subject := subject, audience := audience,
           expiry := expiry, notBefore := notBefore, issuedAt := issuedAt,
           id := id, clientID := clientID, scopes := scopes }
  | _ => none

/-- Modelled from the spec: structural parse of a compact-serialized
signed token (§4.2, `jwt.ParseSigned`): exactly three dot-separated
segments with a recognizable header and a decodable signature.  The
payload segment is kept raw; claims are decoded only after the signature
check. -/
def parseSigned (s : String) : Option ParsedJWT :=
  match splitSeg '.' s.data with
  | [h, p, g] =>
    match decHeader h, decSig g with
    | some hd, some sg =>
      some { header := hd, rawPayload := p, sig := sg,
             signingInput := h ++ '.' :: p }
    | _, _ => none
  | _ => none

/-- The test file's `generateToken`: compact-serialize a payload signed
by `key` with an RS256 / `at+jwt` header. -/
def generateToken (payload : RFC9068Claims) (key : Nat) : String :=
  let h := encHeader { alg := "RS256", typ := "at+jwt" }
  let p := encPayload payload
  let input := h ++ '.' :: p
  String.mk (input ++ '.' :: mkSigWire key input)

/-- Cryptographic signature check, abstracted: the signature verifies
against public key `k` iff it was produced by `k`'s private key over
exactly this token's signing input. -/
def checkSig (k : Nat) (p : ParsedJWT) : Bool :=
  p.sig.key == k && p.sig.input == p.signingInput

/-- Go's `strings.TrimPrefix`: strip one occurrence of the given prefix
if present,
otherwise return the string unchanged. -/
def goTrimPrefix (s pre : String) : String :=
  if pre.data.isPrefixOf s.data then String.mk (s.data.drop pre.data.length) else s

/-- Policy violations reported by the claims validator (§4.3 / §7). -/
inductive PolicyError
  | IssuerMismatch
  | AudienceMismatch
  | TokenExpired
  | IssuedInFuture
  | MissingSubject
  | MissingClientID
  | MissingTokenID
deriving DecidableEq, Repr

/-- The error taxonomy of the authenticator (§7). -/
inductive AuthError
  | Unparseable
  | UnknownKey
  | BadSignature
  | MalformedClaims
  | Policy (e : PolicyError)
  | IdentityNotFound
deriving DecidableEq, Repr

/-- Modelled from the spec: VerificationContext (§3) — expected issuer and
audience from configuration, and the injected clock. -/
structure ValidationCtx where
  expectIssuer : String
  expectAudience : String
  now : Int
deriving DecidableEq, Repr

/-- Check 1 (§4.3): issuer present and equal to the configured expected
issuer, when one is configured. -/
def issuerOk (c : RFC9068Claims) (ctx : ValidationCtx) : Bool :=
  ctx.expectIssuer == "" || c.issuer == some ctx.expectIssuer

/-- Check 2 (§4.3): audience present and containing the configured
expected audience, when one is configured. -/
def audienceOk (c : RFC9068Claims) (ctx : ValidationCtx) : Bool :=
  ctx.expectAudience == "" || c.audience.contains ctx.expectAudience

/-- Check 3 (§4.3): expiry present and strictly greater than now. -/
def expiryOk (c : RFC9068Claims) (ctx : ValidationCtx) : Bool :=
  match c.expiry with
  | some e => decide (ctx.now < e)
  | none => false

/-- Check 4 (§4.3): issued-at present and not strictly after now. -/
def iatOk (c : RFC9068Claims) (ctx : ValidationCtx) : Bool :=
  match c.issuedAt with
  | some t => decide (t ≤ ctx.now)
  | none => false

/-- Check 5 (§4.3): subject present and non-empty. -/
def subjectOk (c : RFC9068Claims) : Bool :=
  match c.subject with
  | some s => s != ""
  | none => false

/-- Check 6 (§4.3): client-id present and non-empty. -/
def clientIDOk (c : RFC9068Claims) : Bool :=
  match c.clientID with
  | some s => s != ""
  | none => false

/-- Check 7 (§4.3): token-id (jti) present and non-empty. -/
def tokenIDOk (c : RFC9068Claims) : Bool :=
  match c.id with
  | some s => s != ""
  | none => false

/-- Modelled from the spec: the claims validator (§4.3) — the seven policy
checks in the fixed order issuer, audience, expiry, issued-at, subject,
client-id, token-id, stopping at the first failure.  `none` means valid. -/
def validate (c : RFC9068Claims) (ctx : ValidationCtx) : Option PolicyError :=
  if !issuerOk c ctx then some .IssuerMismatch
  else if !audienceOk c ctx then some .AudienceMismatch
  else if !expiryOk c ctx then some .TokenExpired
  else if !iatOk c ctx then some .IssuedInFuture
  else if !subjectOk c then some .MissingSubject
  else if !clientIDOk c then some .MissingClientID
  else if !tokenIDOk c then some .MissingTokenID
  else none

/-- The user record returned by the identity directory for a
(org, user-id) query (`user.SignedInUser` of the fake user service). -/
structure UserRecord where
  orgRole : RoleType
  login : String
  name : String
  email : String
  isGrafanaAdmin : Bool
  isDisabled : Bool
deriving DecidableEq, Repr

/-- Client parameters controlling downstream synchronization
(`authn.ClientParams`). -/
structure ClientParams where
  syncUser : Bool
  allowSignUp : Bool
  fetchSyncedUser : Bool
  enableDisabledUsers : Bool
  syncOrgRoles : Bool
  syncTeams : Bool
  syncPermissions : Bool
deriving DecidableEq, Repr

/-- The resolved identity returned on successful authentication
(`authn.Identity`, fields as populated in the test's expected value). -/
structure Identity where
  orgID : Int
  orgCount : Nat
  orgName : String
  orgRoles : List (Int × RoleType)
  id : String
  login : String
  name : String
  email : String
  isGrafanaAdmin : Option Bool
  authModule : String
  authID : String
  isDisabled : Bool
  helpFlags1 : Nat
  permissions : List (Int × List (String × List String))
  clientParams : ClientParams
deriving DecidableEq, Repr

/-- Configuration consumed by the client (`setting.Cfg` fields). -/
structure Cfg where
  extendedJWTAuthEnabled : Bool
  extendedJWTExpectIssuer : String
  extendedJWTExpectAudience : String
deriving DecidableEq, Repr

/-- The Extended JWT client with its collaborators (§6): configuration,
the identity directory (lookup by org and numeric user id), the signing
key service's current public key, and the injected clock's current unix
time. -/
structure ExtendedJWT where
  cfg : Cfg
  userService : Int → Nat → Option UserRecord
  serverPublicKey : Option Nat
  now : Int

/-- An inbound authentication request: the target organization and the
`Authorization` header value. -/
structure Request where
  orgID : Int
  authHeader : String

/-- Modelled from the spec: token extraction from the Authorization header
(§4.5) — strip an optional case-sensitive literal `Bearer ` prefix. -/
def retrieveToken (r : Request) : String :=
  goTrimPrefix r.authHeader "Bearer "

/-- Subject kinds (§9): a tagged decode of the subject string. -/
inductive SubjectKind
  | user (id : Nat)
  | service (raw : String)
deriving DecidableEq, Repr

/-- Modelled from the spec: subject parsing (§4.4) — `user:id:<n>` is a
user-kind subject; any other non-empty subject is treated as a
service-kind subject. -/
def parseSubject (s : String) : Option SubjectKind :=
  if "user:id:".data.isPrefixOf s.data then
    (parseNatChars (s.data.drop 8)).map SubjectKind.user
  else if s == "" then none
  else some (.service s)

/-- All synchronization flags disabled: token-derived identities must not
trigger secondary synchronization side effects (§4.4). -/
def noSyncParams : ClientParams :=
  { syncUser := false, allowSignUp := false, fetchSyncedUser := false,
    enableDisabledUsers := false, syncOrgRoles := false, syncTeams := false,
    syncPermissions := false }

instance {ε α : Type} [DecidableEq ε] [DecidableEq α] : DecidableEq (Except ε α) := fun x y =>
  match x, y with
  | .error a, .error b =>
    if h : a = b then .isTrue (by rw [h]) else .isFalse (fun hc => h (Except.error.inj hc))
  | .ok a, .ok b =>
    if h : a = b then .isTrue (by rw [h]) else .isFalse (fun hc => h (Except.ok.inj hc))
  | .error _, .ok _ => .isFalse (fun hc => Except.noConfusion hc)
  | .ok _, .error _ => .isFalse (fun hc => Except.noConfusion hc)

/-- Modelled from the spec: the token verifier (§4.2) — structural parse
(`Unparseable`), signing-key resolution (`UnknownKey`), signature check
(`BadSignature`, before any claim is trusted), claims decode
(`MalformedClaims`), then claims policy validation (§4.3). -/
def verifyRFC9068Token (s : ExtendedJWT) (raw : String) : Except AuthError RFC9068Claims :=
  match parseSigned raw with
  | none => .error .Unparseable
  | some p =>
    match s.serverPublicKey with
    | none => .error .UnknownKey
    | some k =>
      if checkSig k p then
        match decodePayload p.rawPayload with
        | none => .error .MalformedClaims
        | some c =>
          match validate c { expectIssuer := s.cfg.extendedJWTExpectIssuer,
                             expectAudience := s.cfg.extendedJWTExpectAudience,
                             now := s.now } with
          | some e => .error (.Policy e)
          | none => .ok c
      else .error .BadSignature

/-- Modelled from the spec: the subject resolver (§4.4).  A user-kind
subject is looked up in the directory (`IdentityNotFound` on not-found,
a hard failure); the resulting identity carries the requesting org, the
directory-supplied role for exactly that org, empty permission
placeholders, the re-encoded id `user:<n>`, and all sync flags disabled.
A service-kind subject yields a service identity without a lookup; a
subject that fits no kind is a claim-shape failure. -/
def resolveSubject (s : ExtendedJWT) (orgID : Int) (c : RFC9068Claims) : Except AuthError Identity :=
  match parseSubject (c.subject.getD "") with
  | none => .error .MalformedClaims
  | some (.user n) =>
    match s.userService orgID n with
    | none => .error .IdentityNotFound
    | some u =>
      .ok { orgID := orgID, orgCount := 0, orgName := "",
            orgRoles := [(orgID, u.orgRole)],
            id := "user:" ++ Nat.repr n,
            login := u.login, name := u.name, email := u.email,
            isGrafanaAdmin := some u.isGrafanaAdmin,
            authModule := "", authID := "",
            isDisabled := u.isDisabled, helpFlags1 := 0,
            permissions := [], clientParams := noSyncParams }
  | some (.service raw) =>
    .ok { orgID := orgID, orgCount := 0, orgName := "", orgRoles := [],
          id := raw, login := "", name := "", email := "",
          isGrafanaAdmin := none, authModule := "", authID := "",
          isDisabled := false, helpFlags1 := 0,
          permissions := [], clientParams := noSyncParams }

/-- The applicability check on a bare token string: non-empty, structurally
parseable, and the (unverified) issuer claim equal to the configured
expected issuer.  The issuer comparison is pinned by the test case
"should return false when the issuer does not match the configured
issuer" of `TestExtendedJWTTest`. -/
def testToken (s : ExtendedJWT) (tok : String) : Bool :=
  if tok == "" then false
  else
    match parseSigned tok with
    | none => false
    | some p =>
      match decodePayload p.rawPayload with
      | none => false
      | some c => c.issuer.getD "" == s.cfg.extendedJWTExpectIssuer

/-- The `Test` operation (the spec's `Applies`, §4.5): feature enabled, then the
applicability check on the extracted token. -/
def ExtendedJWT.Test (s : ExtendedJWT) (r : Request) : Bool :=
  s.cfg.extendedJWTAuthEnabled && testToken s (retrieveToken r)

/-- The authentication chain on an extracted token: Verifier → Validator
(inside `verifyRFC9068Token`) → Resolver, short-circuiting on the first
error. -/
def authenticateToken (s : ExtendedJWT) (orgID : Int) (tok : String) : Except AuthError Identity :=
  match verifyRFC9068Token s tok with
  | .error e => .error e
  | .ok c => resolveSubject s orgID c

/-- The `Authenticate` operation (§4.5): extract the token from the Authorization header
and run the verification chain. -/
def ExtendedJWT.Authenticate (s : ExtendedJWT) (r : Request) : Except AuthError Identity :=
  authenticateToken s r.orgID (retrieveToken r)

/-! ## Concrete fixtures from the test file -/

/-- The valid payload of the test file (`validPayload`): issued
2023-05-02T00:00:00Z (unix 1682985600), expiring 2023-05-03T00:00:00Z
(unix 1683072000). -/
def validPayload : RFC9068Claims :=
  { issuer := some "http://localhost:3000", subject := some "user:id:2",
    audience := ["http://localhost:3000"], expiry := some 1683072000,
    notBefore := none, issuedAt := some 1682985600,
    id := some "1234567890", clientID := some "grafana",
    scopes := ["profile", "groups"] }

/-- The client as configured by `setupTestCtx`: enabled, expected issuer
and audience `http://localhost:3000`, the signing-key service publishing
key `7` (the test's `pk.PublicKey`), the fake user service of
`TestExtendedJWTAuthenticate` knowing exactly user 2 in org 1, and the
clock mocked to 2023-05-02T00:01:00Z (unix 1682985660). -/
def testClient : ExtendedJWT :=
  { cfg := { extendedJWTAuthEnabled := true,
             extendedJWTExpectIssuer := "http://localhost:3000",
             extendedJWTExpectAudience := "http://localhost:3000" },
    userService := fun o n =>
      if o == 1 && n == 2 then
        some { orgRole := .admin, login := "johndoe", name := "John Doe",
               email := "johndoe@grafana.com", isGrafanaAdmin := false,
               isDisabled := false }
      else none,
    serverPublicKey := some 7,
    now := 1682985660 }

/-- The identity expected by `TestExtendedJWTAuthenticate`, with every
synchronization flag false. -/
def expectedIdentity : Identity :=
  { orgID := 1, orgCount := 0, orgName := "",
    orgRoles := [(1, RoleType.admin)], id := "user:2",
    login := "johndoe", name := "John Doe", email := "johndoe@grafana.com",
    isGrafanaAdmin := some false, authModule := "", authID := "",
    isDisabled := false, helpFlags1 := 0, permissions := [],
    clientParams := { syncUser := false, allowSignUp := false,
                      fetchSyncedUser := false, enableDisabledUsers := false,
                      syncOrgRoles := false, syncTeams := false,
                      syncPermissions := false } }

/-- The validation context induced by `testClient`. -/
def testCtx : ValidationCtx :=
  { expectIssuer := "http://localhost:3000",
    expectAudience := "http://localhost:3000", now := 1682985660 }

/-- A token whose unverified issuer claim differs from the configured
expected issuer, but which is otherwise the valid test token. -/
def badIssuerToken : String :=
  generateToken { validPayload with issuer := some "http://unknown-issuer" } 7

/-- A header value that itself begins with the literal `Bearer ` prefix:
the valid test token in its `Bearer <token>` form. -/
def bearerToken : String :=
  "Bearer " ++ generateToken validPayload 7

/-! ## Helper lemmas: characterization of the validator's outcomes -/

lemma validate_eq_none_iff (c : RFC9068Claims) (ctx : ValidationCtx) :
    validate c ctx = none ↔
      (issuerOk c ctx = true ∧ audienceOk c ctx = true ∧ expiryOk c ctx = true ∧
       iatOk c ctx = true ∧ subjectOk c = true ∧ clientIDOk c = true ∧
       tokenIDOk c = true) := by
  unfold validate
  cases h1 : issuerOk c ctx <;> cases h2 : audienceOk c ctx <;>
    cases h3 : expiryOk c ctx <;> cases h4 : iatOk c ctx <;>
    cases h5 : subjectOk c <;> cases h6 : clientIDOk c <;>
    cases h7 : tokenIDOk c <;> simp

lemma validate_eq_issuerMismatch_iff (c : RFC9068Claims) (ctx : ValidationCtx) :
    validate c ctx = some .IssuerMismatch ↔ issuerOk c ctx = false := by
  unfold validate
  cases h1 : issuerOk c ctx <;> cases h2 : audienceOk c ctx <;>
    cases h3 : expiryOk c ctx <;> cases h4 : iatOk c ctx <;>
    cases h5 : subjectOk c <;> cases h6 : clientIDOk c <;>
    cases h7 : tokenIDOk c <;> simp

lemma validate_eq_audienceMismatch_iff (c : RFC9068Claims) (ctx : ValidationCtx) :
    validate c ctx = some .AudienceMismatch ↔
      (issuerOk c ctx = true ∧ audienceOk c ctx = false) := by
  unfold validate
  cases h1 : issuerOk c ctx <;> cases h2 : audienceOk c ctx <;>
    cases h3 : expiryOk c ctx <;> cases h4 : iatOk c ctx <;>
    cases h5 : subjectOk c <;> cases h6 : clientIDOk c <;>
    cases h7 : tokenIDOk c <;> simp

lemma validate_eq_tokenExpired_iff (c : RFC9068Claims) (ctx : ValidationCtx) :
    validate c ctx = some .TokenExpired ↔
      (issuerOk c ctx = true ∧ audienceOk c ctx = true ∧ expiryOk c ctx = false) := by
  unfold validate
  cases h1 : issuerOk c ctx <;> cases h2 : audienceOk c ctx <;>
    cases h3 : expiryOk c ctx <;> cases h4 : iatOk c ctx <;>
    cases h5 : subjectOk c <;> cases h6 : clientIDOk c <;>
    cases h7 : tokenIDOk c <;> simp

lemma validate_eq_issuedInFuture_iff (c : RFC9068Claims) (ctx : ValidationCtx) :
    validate c ctx = some .IssuedInFuture ↔
      (issuerOk c ctx = true ∧ audienceOk c ctx = true ∧ expiryOk c ctx = true ∧
       iatOk c ctx = false) := by
  unfold validate
  cases h1 : issuerOk c ctx <;> cases h2 : audienceOk c ctx <;>
    cases h3 : expiryOk c ctx <;> cases h4 : iatOk c ctx <;>
    cases h5 : subjectOk c <;> cases h6 : clientIDOk c <;>
    cases h7 : tokenIDOk c <;> simp

lemma validate_eq_missingSubject_iff (c : RFC9068Claims) (ctx : ValidationCtx) :
    validate c ctx = some .MissingSubject ↔
      (issuerOk c ctx = true ∧ audienceOk c ctx = true ∧ expiryOk c ctx = true ∧
       iatOk c ctx = true ∧ subjectOk c = false) := by
  unfold validate
  cases h1 : issuerOk c ctx <;> cases h2 : audienceOk c ctx <;>
    cases h3 : expiryOk c ctx <;> cases h4 : iatOk c ctx <;>
    cases h5 : subjectOk c <;> cases h6 : clientIDOk c <;>
    cases h7 : tokenIDOk c <;> simp

lemma validate_eq_missingClientID_iff (c : RFC9068Claims) (ctx : ValidationCtx) :
    validate c ctx = some .MissingClientID ↔
      (issuerOk c ctx = true ∧ audienceOk c ctx = true ∧ expiryOk c ctx = true ∧
       iatOk c ctx = true ∧ subjectOk c = true ∧ clientIDOk c = false) := by
  unfold validate
  cases h1 : issuerOk c ctx <;> cases h2 : audienceOk c ctx <;>
    cases h3 : expiryOk c ctx <;> cases h4 : iatOk c ctx <;>
    cases h5 : subjectOk c <;> cases h6 : clientIDOk c <;>
    cases h7 : tokenIDOk c <;> simp

lemma validate_eq_missingTokenID_iff (c : RFC9068Claims) (ctx : ValidationCtx) :
    validate c ctx = some .MissingTokenID ↔
      (issuerOk c ctx = true ∧ audienceOk c ctx = true ∧ expiryOk c ctx = true ∧
       iatOk c ctx = true ∧ subjectOk c = true ∧ clientIDOk c = true ∧
       tokenIDOk c = false) := by
  unfold validate
  cases h1 : issuerOk c ctx <;> cases h2 : audienceOk c ctx <;>
    cases h3 : expiryOk c ctx <;> cases h4 : iatOk c ctx <;>
    cases h5 : subjectOk c <;> cases h6 : clientIDOk c <;>
    cases h7 : tokenIDOk c <;> simp

/-! ## Helper lemmas: Bearer prefix stripping -/

lemma goTrimPrefix_bearer_append (t : String) :
    goTrimPrefix ("Bearer " ++ t) "Bearer " = t := by
  unfold goTrimPrefix
  rw [String.data_append]
  rw [if_pos (List.isPrefixOf_iff_prefix.mpr (List.prefix_append _ _))]
  rw [List.drop_left]

lemma goTrimPrefix_of_not_bearer (t : String)
    (h : "Bearer ".data.isPrefixOf t.data = false) :
    goTrimPrefix t "Bearer " = t := by
  unfold goTrimPrefix
  rw [h]
  rfl

/-! ## Claim theorems -/

set_option maxRecDepth 1000000

/-- C4: for every claims set that passes the issuer and audience checks
and carries an expiry, validation returns `TokenExpired` exactly when
`expiry ≤ now` on the injected clock; in particular the boundary
`expiry = now` is expired (expiry must be strictly greater than now to
pass). -/
theorem ext_c4 (c : RFC9068Claims) (ctx : ValidationCtx) (e : Int)
    (h1 : issuerOk c ctx = true) (h2 : audienceOk c ctx = true)
    (he : c.expiry = some e) :
    validate c ctx = some .TokenExpired ↔ e ≤ ctx.now := by
  rw [validate_eq_tokenExpired_iff]
  simp [h1, h2, expiryOk, he]

/-- C4 witness: at the exact boundary (expiry = now = 1683072000) the
valid test payload is reported expired. -/
theorem ext_c4_witness :
    validate validPayload
        { expectIssuer := "http://localhost:3000",
          expectAudience := "http://localhost:3000", now := 1683072000 }
      = some .TokenExpired ↔ (1683072000 : Int) ≤ (1683072000 : Int) :=
  ext_c4 validPayload
    { expectIssuer := "http://localhost:3000",
      expectAudience := "http://localhost:3000", now := 1683072000 }
    1683072000 (by decide) (by decide) rfl

/-- C5: for every claims set passing the issuer, audience and expiry
checks, a strictly-future issued-at makes validation return
`IssuedInFuture`, while an issued-at equal to the current time is
accepted (never reported as `IssuedInFuture`). -/
theorem ext_c5 (c : RFC9068Claims) (ctx : ValidationCtx)
    (h1 : issuerOk c ctx = true) (h2 : audienceOk c ctx = true)
    (h3 : expiryOk c ctx = true) :
    (∀ t : Int, c.issuedAt = some t → ctx.now < t →
        validate c ctx = some .IssuedInFuture) ∧
    (c.issuedAt = some ctx.now → validate c ctx ≠ some .IssuedInFuture) := by
  constructor
  · intro t ht hlt
    refine (validate_eq_issuedInFuture_iff c ctx).mpr ⟨h1, h2, h3, ?_⟩
    simp [iatOk, ht]
    omega
  · intro ht hcontra
    have h4 := ((validate_eq_issuedInFuture_iff c ctx).mp hcontra).2.2.2
    have : iatOk c ctx = true := by simp [iatOk, ht]
    rw [this] at h4
    simp at h4

/-- C5 witness: with the mock clock at 2023-05-02T00:01:00Z, an issued-at
of 2023-05-02T00:02:00Z (the test's "iat later than current time" case)
is reported `IssuedInFuture`. -/
theorem ext_c5_witness :
    validate { validPayload with issuedAt := some 1682985720 } testCtx
      = some .IssuedInFuture :=
  (ext_c5 { validPayload with issuedAt := some 1682985720 } testCtx
    (by decide) (by decide) (by decide)).1 1682985720 rfl (by decide)

/-- C6: from any claims set that validates cleanly (with an issuer and an
audience configured), omitting exactly one required claim makes validation
fail with the specific error for that claim — `IssuerMismatch`,
`AudienceMismatch`, `MissingSubject`, `MissingClientID`, `MissingTokenID`,
`TokenExpired` and `IssuedInFuture` respectively — never a generic
failure. -/
theorem ext_c6 (c : RFC9068Claims) (ctx : ValidationCtx)
    (hiss : ctx.expectIssuer ≠ "") (haud : ctx.expectAudience ≠ "")
    (hvalid : validate c ctx = none) :
    validate { c with issuer := none } ctx = some .IssuerMismatch ∧
    validate { c with audience := [] } ctx = some .AudienceMismatch ∧
    validate { c with subject := none } ctx = some .MissingSubject ∧
    validate { c with clientID := none } ctx = some .MissingClientID ∧
    validate { c with id := none } ctx = some .MissingTokenID ∧
    validate { c with expiry := none } ctx = some .TokenExpired ∧
    validate { c with issuedAt := none } ctx = some .IssuedInFuture := by
  obtain ⟨h1, h2, h3, h4, h5, h6, h7⟩ := (validate_eq_none_iff c ctx).mp hvalid
  refine ⟨?_, ?_, ?_, ?_, ?_, ?_, ?_⟩
  · exact (validate_eq_issuerMismatch_iff _ ctx).mpr (by simp [issuerOk, hiss])
  · exact (validate_eq_audienceMismatch_iff _ ctx).mpr
      ⟨h1, by simp [audienceOk, haud]⟩
  · exact (validate_eq_missingSubject_iff _ ctx).mpr ⟨h1, h2, h3, h4, rfl⟩
  · exact (validate_eq_missingClientID_iff _ ctx).mpr ⟨h1, h2, h3, h4, h5, rfl⟩
  · exact (validate_eq_missingTokenID_iff _ ctx).mpr ⟨h1, h2, h3, h4, h5, h6, rfl⟩
  · exact (validate_eq_tokenExpired_iff _ ctx).mpr ⟨h1, h2, rfl⟩
  · exact (validate_eq_issuedInFuture_iff _ ctx).mpr ⟨h1, h2, h3, rfl⟩

/-- C6 witness: the seven one-claim omissions of the test file's valid
payload, under the test configuration and mock clock, each yield their
specific error. -/
theorem ext_c6_witness :
    validate { validPayload with issuer := none } testCtx = some .IssuerMismatch ∧
    validate { validPayload with audience := [] } testCtx = some .AudienceMismatch ∧
    validate { validPayload with subject := none } testCtx = some .MissingSubject ∧
    validate { validPayload with clientID := none } testCtx = some .MissingClientID ∧
    validate { validPayload with id := none } testCtx = some .MissingTokenID ∧
    validate { validPayload with expiry := none } testCtx = some .TokenExpired ∧
    validate { validPayload with issuedAt := none } testCtx = some .IssuedInFuture :=
  ext_c6 validPayload testCtx (by decide) (by decide) (by decide)

/-- C7: the validator runs its seven checks in the fixed order issuer,
audience, expiry, issued-at, subject, client-id, token-id, stops at the
first failing check and reports that check's distinct reason; a claims set
violating several checks at once is reported with the earliest one. -/
theorem ext_c7 (c : RFC9068Claims) (ctx : ValidationCtx) :
    (issuerOk c ctx = false → validate c ctx = some .IssuerMismatch) ∧
    (issuerOk c ctx = true → audienceOk c ctx = false →
      validate c ctx = some .AudienceMismatch) ∧
    (issuerOk c ctx = true → audienceOk c ctx = true → expiryOk c ctx = false →
      validate c ctx = some .TokenExpired) ∧
    (issuerOk c ctx = true → audienceOk c ctx = true → expiryOk c ctx = true →
      iatOk c ctx = false → validate c ctx = some .IssuedInFuture) ∧
    (issuerOk c ctx = true → audienceOk c ctx = true → expiryOk c ctx = true →
      iatOk c ctx = true → subjectOk c = false →
      validate c ctx = some .MissingSubject) ∧
    (issuerOk c ctx = true → audienceOk c ctx = true → expiryOk c ctx = true →
      iatOk c ctx = true → subjectOk c = true → clientIDOk c = false →
      validate c ctx = some .MissingClientID) ∧
    (issuerOk c ctx = true → audienceOk c ctx = true → expiryOk c ctx = true →
      iatOk c ctx = true → subjectOk c = true → clientIDOk c = true →
      tokenIDOk c = false → validate c ctx = some .MissingTokenID) ∧
    (issuerOk c ctx = true → audienceOk c ctx = true → expiryOk c ctx = true →
      iatOk c ctx = true → subjectOk c = true → clientIDOk c = true →
      tokenIDOk c = true → validate c ctx = none) := by
  refine ⟨fun h1 => (validate_eq_issuerMismatch_iff c ctx).mpr h1,
          fun h1 h2 => (validate_eq_audienceMismatch_iff c ctx).mpr ⟨h1, h2⟩,
          fun h1 h2 h3 => (validate_eq_tokenExpired_iff c ctx).mpr ⟨h1, h2, h3⟩,
          fun h1 h2 h3 h4 => (validate_eq_issuedInFuture_iff c ctx).mpr ⟨h1, h2, h3, h4⟩,
          fun h1 h2 h3 h4 h5 => (validate_eq_missingSubject_iff c ctx).mpr ⟨h1, h2, h3, h4, h5⟩,
          fun h1 h2 h3 h4 h5 h6 => (validate_eq_missingClientID_iff c ctx).mpr ⟨h1, h2, h3, h4, h5, h6⟩,
          fun h1 h2 h3 h4 h5 h6 h7 => (validate_eq_missingTokenID_iff c ctx).mpr ⟨h1, h2, h3, h4, h5, h6, h7⟩,
          fun h1 h2 h3 h4 h5 h6 h7 => (validate_eq_none_iff c ctx).mpr ⟨h1, h2, h3, h4, h5, h6, h7⟩⟩

/-- C7 witness: the spec's example — a token with a wrong issuer that is
also expired (clock far past its expiry) reports `IssuerMismatch`, not
`TokenExpired`. -/
theorem ext_c7_witness :
    expiryOk { validPayload with issuer := some "http://unknown-issuer" }
        { testCtx with now := 1700000000 } = false ∧
    validate { validPayload with issuer := some "http://unknown-issuer" }
        { testCtx with now := 1700000000 } = some .IssuerMismatch :=
  ⟨by decide,
   (ext_c7 { validPayload with issuer := some "http://unknown-issuer" }
     { testCtx with now := 1700000000 }).1 (by decide)⟩

/-- C2: for every well-formed compact token whose signature was produced
by a key other than the one published by the signing-key service,
verification fails with exactly `BadSignature` — in particular no
claim-policy error can be reported for such a token, since the signature
check precedes any use of the claims. -/
theorem ext_c2 (s : ExtendedJWT) (raw : String) (p : ParsedJWT) (k : Nat)
    (hp : parseSigned raw = some p) (hk : s.serverPublicKey = some k)
    (hne : p.sig.key ≠ k) :
    verifyRFC9068Token s raw = .error .BadSignature := by
  have hcs : checkSig k p = false := by
    unfold checkSig
    have : (p.sig.key == k) = false := by
      simp [hne]
    simp [this]
  unfold verifyRFC9068Token
  rw [hp, hk]
  simp [hcs]

/-- C2 witness: the test token signed by the untrusted key `99` is
rejected with `BadSignature` by the client trusting key `7`. -/
theorem ext_c2_witness :
    verifyRFC9068Token testClient (generateToken validPayload 99)
      = .error .BadSignature :=
  ext_c2 testClient (generateToken validPayload 99)
    ((parseSigned (generateToken validPayload 99)).get (by decide))
    7 (Option.some_get _).symm (by decide) (by decide)

/-- C8: `Authenticate` never returns an identity and an error together;
every verifier failure short-circuits the chain unchanged; and a
cryptographically valid token whose user-kind subject is not found in the
directory fails hard with `IdentityNotFound`. -/
theorem ext_c8 (s : ExtendedJWT) (r : Request) :
    (∀ i : Identity, ExtendedJWT.Authenticate s r = .ok i →
       ∀ e : AuthError, ExtendedJWT.Authenticate s r ≠ .error e) ∧
    (∀ e : AuthError, verifyRFC9068Token s (retrieveToken r) = .error e →
       ExtendedJWT.Authenticate s r = .error e) ∧
    (∀ (c : RFC9068Claims) (n : Nat),
       verifyRFC9068Token s (retrieveToken r) = .ok c →
       parseSubject (c.subject.getD "") = some (.user n) →
       s.userService r.orgID n = none →
       ExtendedJWT.Authenticate s r = .error .IdentityNotFound) := by
  refine ⟨?_, ?_, ?_⟩
  · intro i hi e he
    rw [hi] at he
    exact Except.noConfusion he
  · intro e hv
    unfold ExtendedJWT.Authenticate authenticateToken
    rw [hv]
  · intro c n hv hs hu
    unfold ExtendedJWT.Authenticate authenticateToken resolveSubject
    simp only [hv, hs, hu]

/-- C8 witness: a validly signed token for subject `user:id:3`, absent
from the directory, is rejected with `IdentityNotFound`. -/
theorem ext_c8_witness :
    ExtendedJWT.Authenticate testClient
        { orgID := 1,
          authHeader := generateToken { validPayload with subject := some "user:id:3" } 7 }
      = .error .IdentityNotFound :=
  (ext_c8 testClient
      { orgID := 1,
        authHeader := generateToken { validPayload with subject := some "user:id:3" } 7 }).2.2
    { validPayload with subject := some "user:id:3" } 3
    (by decide) (by decide) (by decide)

/-- C10: every successful authentication of a user-kind subject
`user:id:<n>` yields the re-encoded identity id `user:<n>`, the
requesting organization's id, an org-role map containing exactly that one
organization with the directory-supplied role, and an empty permissions
map. -/
theorem ext_c10 (s : ExtendedJWT) (r : Request) (c : RFC9068Claims) (n : Nat)
    (i : Identity)
    (hv : verifyRFC9068Token s (retrieveToken r) = .ok c)
    (hs : parseSubject (c.subject.getD "") = some (.user n))
    (hi : ExtendedJWT.Authenticate s r = .ok i) :
    i.id = "user:" ++ Nat.repr n ∧ i.orgID = r.orgID ∧
    (∃ u : UserRecord, s.userService r.orgID n = some u ∧
       i.orgRoles = [(r.orgID, u.orgRole)]) ∧
    i.permissions = [] := by
  unfold ExtendedJWT.Authenticate authenticateToken resolveSubject at hi
  simp only [hv, hs] at hi
  cases hu : s.userService r.orgID n with
  | none =>
    simp only [hu] at hi
    exact Except.noConfusion hi
  | some u =>
    simp only [hu] at hi
    obtain rfl := (Except.ok.inj hi).symm
    exact ⟨rfl, rfl, ⟨u, rfl, rfl⟩, rfl⟩

/-- C10 witness: the end-to-end test token with subject `user:id:2` yields
an identity with id `user:2`, org 1, exactly `{1 ↦ Admin}` as org roles,
and no permissions. -/
theorem ext_c10_witness :
    expectedIdentity.id = "user:" ++ Nat.repr 2 ∧ expectedIdentity.orgID = 1 ∧
    (∃ u : UserRecord, testClient.userService 1 2 = some u ∧
       expectedIdentity.orgRoles = [(1, u.orgRole)]) ∧
    expectedIdentity.permissions = [] :=
  ext_c10 testClient { orgID := 1, authHeader := generateToken validPayload 7 }
    validPayload 2 expectedIdentity (by decide) (by decide) (by decide)

/-- C1 counterexample: with the feature enabled, a non-empty header whose
content parses structurally as a compact signed token, `Test` still
returns false — because the token's (unverified) issuer claim differs
from the configured expected issuer.  This is the behaviour demanded by
the test case "should return false when the issuer does not match the
configured issuer". -/
theorem ext_c1_counterexample :
    testClient.cfg.extendedJWTAuthEnabled = true ∧
    retrieveToken { orgID := 1, authHeader := badIssuerToken } ≠ "" ∧
    (parseSigned (retrieveToken { orgID := 1, authHeader := badIssuerToken })).isSome = true ∧
    ExtendedJWT.Test testClient { orgID := 1, authHeader := badIssuerToken } = false :=
  ⟨by decide, by decide, by decide, by decide⟩

/-- C1 (amended): `Test` returns true iff the feature is enabled AND the
extracted token is non-empty AND it parses structurally as a compact
signed token whose decodable payload carries an (unverified) issuer claim
equal to the configured expected issuer.  It is a pure boolean — no
signature or claim-policy verification is involved — and in particular it
is false whenever the feature flag is disabled. -/
theorem ext_c1_amended (s : ExtendedJWT) (r : Request) :
    ExtendedJWT.Test s r = true ↔
      (s.cfg.extendedJWTAuthEnabled = true ∧ retrieveToken r ≠ "" ∧
        ∃ p c, parseSigned (retrieveToken r) = some p ∧
          decodePayload p.rawPayload = some c ∧
          c.issuer.getD "" = s.cfg.extendedJWTExpectIssuer) := by
  unfold ExtendedJWT.Test testToken
  by_cases h0 : retrieveToken r = ""
  · simp [h0]
  · cases hp : parseSigned (retrieveToken r) with
    | none => simp [h0, hp]
    | some p =>
      cases hd : decodePayload p.rawPayload with
      | none => simp [h0, hp, hd]
      | some c => simp [h0, hp, hd]

/-- C1 instance: the amended characterization evaluated at the valid test
token. -/
theorem ext_c1_witness :
    ExtendedJWT.Test testClient { orgID := 1, authHeader := generateToken validPayload 7 } = true ↔
      (testClient.cfg.extendedJWTAuthEnabled = true ∧
        retrieveToken { orgID := 1, authHeader := generateToken validPayload 7 } ≠ "" ∧
        ∃ p c, parseSigned (retrieveToken { orgID := 1, authHeader := generateToken validPayload 7 }) = some p ∧
          decodePayload p.rawPayload = some c ∧
          c.issuer.getD "" = testClient.cfg.extendedJWTExpectIssuer) :=
  ext_c1_amended testClient { orgID := 1, authHeader := generateToken validPayload 7 }

/-- C3: the end-to-end scenario — the token with issuer and audience
`http://localhost:3000`, subject `user:id:2`, a valid signature from the
trusted key, issued 2023-05-02T00:00:00Z and expiring one day later,
authenticated at clock time 2023-05-02T00:01:00Z, resolves to user 2 in
org 1 with the directory-supplied Admin role and every synchronization
flag false. -/
theorem ext_c3 :
    ExtendedJWT.Authenticate testClient
        { orgID := 1, authHeader := generateToken validPayload 7 }
      = .ok expectedIdentity := by decide

/-- C9 counterexample: for the token string `bearerToken` (which itself
begins with `Bearer `), the bare-header form authenticates successfully
while the `Bearer `-prefixed form is unparseable, and `Test` answers
differently for the two forms. -/
theorem ext_c9_counterexample :
    ExtendedJWT.Test testClient { orgID := 1, authHeader := bearerToken } = true ∧
    ExtendedJWT.Test testClient { orgID := 1, authHeader := "Bearer " ++ bearerToken } = false ∧
    ExtendedJWT.Authenticate testClient { orgID := 1, authHeader := bearerToken }
      = .ok expectedIdentity ∧
    ExtendedJWT.Authenticate testClient { orgID := 1, authHeader := "Bearer " ++ bearerToken }
      = .error .Unparseable :=
  ⟨by decide, by decide, by decide, by decide⟩

/-- C9 (amended): for every token string that does not itself begin with
the literal `Bearer ` prefix, a request carrying exactly the token and a
request carrying `Bearer ` followed by the token produce identical
results — `Test` answers the same, and `Authenticate` returns the same
identity or the same error. -/
theorem ext_c9_amended (s : ExtendedJWT) (o : Int) (t : String)
    (h : "Bearer ".data.isPrefixOf t.data = false) :
    ExtendedJWT.Test s { orgID := o, authHeader := t }
      = ExtendedJWT.Test s { orgID := o, authHeader := "Bearer " ++ t } ∧
    ExtendedJWT.Authenticate s { orgID := o, authHeader := t }
      = ExtendedJWT.Authenticate s { orgID := o, authHeader := "Bearer " ++ t } := by
  have h1 : retrieveToken { orgID := o, authHeader := t } = t :=
    goTrimPrefix_of_not_bearer t h
  have h2 : retrieveToken { orgID := o, authHeader := "Bearer " ++ t } = t :=
    goTrimPrefix_bearer_append t
  constructor
  · unfold ExtendedJWT.Test
    rw [h1, h2]
  · unfold ExtendedJWT.Authenticate
    rw [h1, h2]

/-- C9 instance: the valid test token (which does not start with
`Bearer `) behaves identically in bare and `Bearer `-prefixed form. -/
theorem ext_c9_witness :
    (ExtendedJWT.Test testClient { orgID := 1, authHeader := generateToken validPayload 7 }
      = ExtendedJWT.Test testClient
          { orgID := 1, authHeader := "Bearer " ++ generateToken validPayload 7 }) ∧
    (ExtendedJWT.Authenticate testClient { orgID := 1, authHeader := generateToken validPayload 7 }
      = ExtendedJWT.Authenticate testClient
          { orgID := 1, authHeader := "Bearer " ++ generateToken validPayload 7 }) :=
  ext_c9_amended testClient 1 (generateToken validPayload 7) (by decide)
